import Mathlib

/-!
Shallow embedding of build_resume_html.py: a script that parses a Coursera
CSV export, optionally fetches completed courses from the Coursera API,
loads an external JSON course list, merges completed records into a
certifications list, and renders an HTML page.

Modelling conventions:
* Python floats are modelled as rationals; round(x, 1) is modelled as
  round-half-to-even at one decimal place.
* A CSV row from csv.DictReader is a record of optional string fields
  (a missing column yields None from row.get, modelled as Option.none).
* Files are Option values: none models a path that does not exist.
* Exceptions that propagate out of a function are modelled by Option:
  none is an uncaught exception.
* JSON values are modelled by an inductive Jval (string, number, null)
  and JSON objects by association lists with first-match lookup.
* Python list.sort is a stable sort; it is embedded as insertion sort
  (Mathlib List.insertionSort), which is also stable, over the comparison
  induced by the sort key.
-/

/-- Decimal digit value of a character. -/
def dval (c : Char) : ℕ := c.toNat - 48

/-- JSON values as far as this program inspects them. -/
inductive Jval where
  | str (s : String)
  | num (q : ℚ)
  | null
deriving DecidableEq, Repr

/-- A JSON object: association list with first-match key lookup. -/
abbrev JObj : Type := List (String × Jval)

/-- Dictionary lookup itm.get(k): first matching key, none when absent. -/
def jget (itm : JObj) (k : String) : Option Jval :=
  List.lookup k itm

/-- One row produced by csv.DictReader: the four fields the script reads.
A field is none when the column is absent from the CSV header. -/
structure Row where
  courseName : Option String
  hours : Option String
  status : Option String
  completionDate : Option String
deriving DecidableEq, Repr

/-- A calendar date as produced by datetime.strptime (time is always midnight
here, so only the date triple matters). -/
structure Date where
  year : ℕ
  month : ℕ
  day : ℕ
deriving DecidableEq, Repr

/-- A completed-course record built by parse_coursera_csv. -/
structure CompRec where
  title : String
  provider : String
  hours : ℚ
  completed_at : Option Date
  completed_at_display : String
deriving DecidableEq, Repr

/-- One element of the Coursera API response (fields the script reads). -/
structure ApiElem where
  courseName : String
  workload : Option Jval
  completionDate : Option String
  slug : String
deriving DecidableEq, Repr

/-- A record built by fetch_coursera_api. -/
structure ApiRec where
  title : String
  provider : String
  hours : Option Jval
  url : String
deriving DecidableEq, Repr

/-- Model of Python float(s) on decimal literals: optional sign, digits with
an optional fractional part (at least one digit overall), and an optional
decimal exponent.  Returns none when the string is not such a literal,
modelling the ValueError float raises.  The special accepted forms inf,
nan, digit-group underscores and surrounding whitespace are not modelled;
no claim depends on them. -/
def pyFloat? (s : String) : Option ℚ :=
  let cs := s.toList
  let sgncs : ℚ × List Char :=
    match cs with
    | '+' :: rest => (1, rest)
    | '-' :: rest => (-1, rest)
    | _ => (1, cs)
  let sgn := sgncs.1
  let cs0 := sgncs.2
  let intd := cs0.takeWhile Char.isDigit
  let cs1 := cs0.dropWhile Char.isDigit
  let fraccs : List Char × List Char :=
    match cs1 with
    | '.' :: rest => (rest.takeWhile Char.isDigit, rest.dropWhile Char.isDigit)
    | _ => ([], cs1)
  let fracd := fraccs.1
  let cs2 := fraccs.2
  if intd.isEmpty && fracd.isEmpty then none
  else
    let mant : ℚ := sgn * ((intd.foldl (fun a c => 10 * a + dval c) 0 : ℕ) +
      (fracd.foldl (fun a c => 10 * a + dval c) 0 : ℕ) / (10 : ℚ) ^ fracd.length)
    match cs2 with
    | [] => some mant
    | e :: rest =>
      if e = 'e' || e = 'E' then
        let esgncs : Bool × List Char :=
          match rest with
          | '+' :: r => (false, r)
          | '-' :: r => (true, r)
          | _ => (false, rest)
        let eds := esgncs.2
        if eds.isEmpty || !(eds.all Char.isDigit) then none
        else
          let ev : ℕ := eds.foldl (fun a c => 10 * a + dval c) 0
          if esgncs.1 then some (mant / (10 : ℚ) ^ ev) else some (mant * (10 : ℚ) ^ ev)
      else none

/-- Round a rational to the nearest integer, ties to even, modelling the
rounding used by Python round. -/
def roundHalfEven (q : ℚ) : ℤ :=
  let n := ⌊q⌋
  let r := q - n
  if r < 1 / 2 then n
  else if 1 / 2 < r then n + 1
  else if n % 2 = 0 then n else n + 1

/-- Model of Python round(q, 1). -/
def round1 (q : ℚ) : ℚ := (roundHalfEven (q * 10) : ℚ) / 10

/-- Model of float(r.get('Hours') or 0): a missing column or empty string
defaults to 0; a non-empty string goes through float, which may raise. -/
def pyHours (r : Row) : Option ℚ :=
  match r.hours with
  | none => some 0
  | some s => if s = "" then some 0 else pyFloat? s

/-- str.lower(): lowercase each character (String.toLower unfolded to its
action on the character list). -/
def lowerStr (s : String) : String := String.mk (s.data.map Char.toLower)

/-- Model of r.get('Status','').lower() in ('completed','passed','certificate earned'). -/
def statusIsCompleted (s : Option String) : Bool :=
  let t := lowerStr (s.getD "")
  t == "completed" || t == "passed" || t == "certificate earned"

/-- strptime %Y: exactly four digits. -/
def matchYear : List Char → Option (ℕ × List Char)
  | a :: b :: c :: d :: rest =>
    if a.isDigit && b.isDigit && c.isDigit && d.isDigit then
      some (1000 * dval a + 100 * dval b + 10 * dval c + dval d, rest)
    else none
  | _ => none

/-- strptime %m: the regex alternatives 1[0-2], 0[1-9], [1-9], listed in
priority order for backtracking. -/
def monthAlts (cs : List Char) : List (ℕ × List Char) :=
  (match cs with
   | '1' :: c :: rest => if '0' ≤ c ∧ c ≤ '2' then [(10 + dval c, rest)] else []
   | _ => []) ++
  (match cs with
   | '0' :: c :: rest => if '1' ≤ c ∧ c ≤ '9' then [(dval c, rest)] else []
   | _ => []) ++
  (match cs with
   | c :: rest => if '1' ≤ c ∧ c ≤ '9' then [(dval c, rest)] else []
   | _ => [])

/-- strptime %d: the regex alternatives 3[0-1], [1-2]d, 0[1-9], [1-9], and
blank-padded space-[1-9], listed in priority order for backtracking. -/
def dayAlts (cs : List Char) : List (ℕ × List Char) :=
  (match cs with
   | '3' :: c :: rest => if c = '0' ∨ c = '1' then [(30 + dval c, rest)] else []
   | _ => []) ++
  (match cs with
   | c :: d :: rest =>
     if (c = '1' ∨ c = '2') ∧ d.isDigit then [(10 * dval c + dval d, rest)] else []
   | _ => []) ++
  (match cs with
   | '0' :: c :: rest => if '1' ≤ c ∧ c ≤ '9' then [(dval c, rest)] else []
   | _ => []) ++
  (match cs with
   | c :: rest => if '1' ≤ c ∧ c ≤ '9' then [(dval c, rest)] else []
   | _ => []) ++
  (match cs with
   | ' ' :: c :: rest => if '1' ≤ c ∧ c ≤ '9' then [(dval c, rest)] else []
   | _ => [])

/-- Full regex match for the format %Y-%m-%d: the whole input must be
consumed; alternatives are tried with backtracking in priority order. -/
def matchYMD (cs : List Char) : Option (ℕ × ℕ × ℕ) :=
  match matchYear cs with
  | none => none
  | some yr =>
    match yr.2 with
    | '-' :: r2 =>
      (monthAlts r2).findSome? (fun mr =>
        match mr.2 with
        | '-' :: r3 =>
          (dayAlts r3).findSome? (fun dr =>
            if dr.2 = [] then some (yr.1, mr.1, dr.1) else none)
        | _ => none)
    | _ => none

/-- Full regex match for %d-%m-%Y or %d/%m/%Y with the given separator. -/
def matchDMY (sep : Char) (cs : List Char) : Option (ℕ × ℕ × ℕ) :=
  (dayAlts cs).findSome? (fun dr =>
    match dr.2 with
    | c1 :: r1 =>
      if c1 = sep then
        (monthAlts r1).findSome? (fun mr =>
          match mr.2 with
          | c2 :: r2 =>
            if c2 = sep then
              match matchYear r2 with
              | some yr => if yr.2 = [] then some (yr.1, mr.1, dr.1) else none
              | none => none
            else none
          | _ => none)
      else none
    | _ => none)

/-- Gregorian leap year, as the datetime module computes it. -/
def isLeap (y : ℕ) : Bool := y % 4 == 0 && (!(y % 100 == 0) || y % 400 == 0)

/-- Number of days in a month of a year. -/
def daysInMonth (y m : ℕ) : ℕ :=
  if m = 2 then (if isLeap y then 29 else 28)
  else if m = 4 ∨ m = 6 ∨ m = 9 ∨ m = 11 then 30
  else 31

/-- Validation performed by the datetime constructor: year at least 1,
month 1..12, day within the month.  none models the ValueError raised for
an out-of-range date. -/
def mkValidDate (ymd : ℕ × ℕ × ℕ) : Option Date :=
  if 1 ≤ ymd.1 ∧ 1 ≤ ymd.2.1 ∧ ymd.2.1 ≤ 12 ∧ 1 ≤ ymd.2.2 ∧ ymd.2.2 ≤ daysInMonth ymd.1 ymd.2.1
  then some ⟨ymd.1, ymd.2.1, ymd.2.2⟩ else none

/-- strptime with format %Y-%m-%d (regex match, then date validation). -/
def strptimeYMD (cs : List Char) : Option Date := (matchYMD cs).bind mkValidDate

/-- strptime with format %d-%m-%Y. -/
def strptimeDMYdash (cs : List Char) : Option Date := (matchDMY '-' cs).bind mkValidDate

/-- strptime with format %d/%m/%Y. -/
def strptimeDMYslash (cs : List Char) : Option Date := (matchDMY '/' cs).bind mkValidDate

/-- The date-parsing loop of parse_coursera_csv: the first 10 characters of
the field are tried against the three formats in order; the first success
wins and the loop breaks; any failure is swallowed. -/
def parseDateField (s : String) : Option Date :=
  let cs := s.toList.take 10
  match strptimeYMD cs with
  | some d => some d
  | none =>
    match strptimeDMYdash cs with
    | some d => some d
    | none => strptimeDMYslash cs

/-- Zero-padded two-digit field, as strftime %d produces. -/
def pad2 (n : ℕ) : String := if n < 10 then "0" ++ toString n else toString n

/-- strftime %b month abbreviations (C locale). -/
def monthAbbrev : ℕ → String
  | 1 => "Jan" | 2 => "Feb" | 3 => "Mar" | 4 => "Apr" | 5 => "May" | 6 => "Jun"
  | 7 => "Jul" | 8 => "Aug" | 9 => "Sep" | 10 => "Oct" | 11 => "Nov" | 12 => "Dec"
  | _ => ""

/-- dt.strftime('%d %b %Y'). -/
def fmtDisplay (d : Date) : String :=
  pad2 d.day ++ " " ++ monthAbbrev d.month ++ " " ++ toString d.year

/-- The record literal appended to comps for a completed row. -/
def mkCompRec (r : Row) (hrs : ℚ) : CompRec :=
  let dt := parseDateField (r.completionDate.getD "")
  { title := r.courseName.getD ""
    provider := "Coursera"
    hours := round1 hrs
    completed_at := dt
    completed_at_display := match dt with | some d => fmtDisplay d | none => "" }

/-- One iteration of the row loop in parse_coursera_csv: parse the hours
(may raise), add to the running total, and append a completed record when
the status matches. -/
def csvStep (acc : ℚ × List CompRec) (r : Row) : Option (ℚ × List CompRec) :=
  match pyHours r with
  | none => none
  | some hrs =>
    some (acc.1 + hrs,
      if statusIsCompleted r.status then acc.2 ++ [mkCompRec r hrs] else acc.2)

/-- The sort key: x['completed_at'] or datetime.min, encoded as an ordinal
(datetime.min is year 1, month 1, day 1, so absent dates sort as earliest). -/
def sortKey (c : CompRec) : ℕ :=
  let d := c.completed_at.getD ⟨1, 1, 1⟩
  d.year * 10000 + d.month * 100 + d.day

/-- The ordering used by comps.sort(key=..., reverse=True): descending by
sort key. -/
def descByDate (a b : CompRec) : Prop := sortKey b ≤ sortKey a

instance : DecidableRel descByDate := fun _ _ => Nat.decLe _ _

instance : IsTotal CompRec descByDate := ⟨fun a b => Nat.le_total (sortKey b) (sortKey a)⟩

instance : IsTrans CompRec descByDate :=
  ⟨fun _ _ _ hab hbc => Nat.le_trans hbc hab⟩

/-- comps.sort(key=lambda x: x['completed_at'] or datetime.min, reverse=True):
Python list.sort is stable, so it is embedded as insertion sort over the
descending-by-date ordering. -/
def sortComps (comps : List CompRec) : List CompRec :=
  List.insertionSort descByDate comps

/-- parse_coursera_csv: a missing file yields (0, []); otherwise the rows
are folded through the row loop (propagating any exception), the total is
rounded to one decimal and the completed records are sorted. -/
def parse_coursera_csv (file : Option (List Row)) : Option (ℚ × List CompRec) :=
  let res : Option (ℚ × List CompRec) :=
    match file with
    | none => some (0, [])
    | some rows => rows.foldlM csvStep (0, [])
  res.map (fun p => (round1 p.1, sortComps p.2))

/-- Python truthiness of an optional string: None and the empty string are
falsy, every other string is truthy. -/
def truthyStr (s : Option String) : Bool :=
  match s with
  | none => false
  | some s => !(s == "")

/-- The pure core of fetch_coursera_api, given the elements list of the
decoded JSON response: for each element with a truthy completionDate,
append a record with title, provider, workload hours and constructed URL. -/
def fetch_coursera_api (elems : List ApiElem) : List ApiRec :=
  elems.foldl
    (fun certs e =>
      if truthyStr e.completionDate then
        certs ++ [⟨e.courseName, "Coursera", e.workload,
          "https://www.coursera.org/learn/" ++ e.slug⟩]
      else certs)
    []

/-- The record literal built by fetch_external for one JSON object:
each field read with itm.get and a silent default. -/
def extRecord (itm : JObj) : JObj :=
  [("title", (jget itm "title").getD (.str "")),
   ("provider", (jget itm "provider").getD (.str "")),
   ("hours", (jget itm "estimated_hours").getD (.num 0)),
   ("status", (jget itm "status").getD (.str "in-progress")),
   ("url", (jget itm "url").getD (.str ""))]

/-- fetch_external: absent file yields []; otherwise each object of the
JSON array is mapped to a defaulted record, in order. -/
def fetch_external (file : Option (List JObj)) : List JObj :=
  match file with
  | none => []
  | some items => items.foldl (fun out itm => out ++ [extRecord itm]) []

/-- The list comprehension [e for e in external if e['status']=='completed']:
the subscript e['status'] raises KeyError when the key is absent, modelled
by none. -/
def selectCompleted : List JObj → Option (List JObj)
  | [] => some []
  | e :: es =>
    match jget e "status" with
    | none => none
    | some v =>
      (selectCompleted es).map fun rest =>
        if v = Jval.str "completed" then e :: rest else rest

/-- The merge in main: certs = completed + [e for e in external if
e['status']=='completed'].  The Python list is heterogeneous, modelled by a
sum type. -/
def mergeCerts {α : Type} (completed : List α) (external : List JObj) :
    Option (List (α ⊕ JObj)) :=
  (selectCompleted external).map fun kept =>
    completed.map Sum.inl ++ kept.map Sum.inr

/-- The data computed by main and passed to render_html. -/
structure MainOut where
  total : ℚ
  completed : List (ApiRec ⊕ CompRec)
  external : List JObj
  certs : List ((ApiRec ⊕ CompRec) ⊕ JObj)
deriving DecidableEq

/-- The dataflow of main: always parse the CSV; take completed records from
the API when the token is truthy, else from the CSV; load external records;
merge into certifications.  apiElems is the decoded response of the one API
call, consulted only when the token is truthy. -/
def runMain (token : Option String) (csvFile : Option (List Row))
    (apiElems : List ApiElem) (extFile : Option (List JObj)) : Option MainOut :=
  match parse_coursera_csv csvFile with
  | none => none
  | some tc =>
    let completed : List (ApiRec ⊕ CompRec) :=
      if truthyStr token then (fetch_coursera_api apiElems).map Sum.inl
      else tc.2.map Sum.inr
    let external := fetch_external extFile
    match mergeCerts completed external with
    | none => none
    | some certs => some ⟨tc.1, completed, external, certs⟩

/-- Hours contributed by a row when its hours field parses (spec side). -/
def rowHours (r : Row) : ℚ := (pyHours r).getD 0

/-- The completed records of a row list in row order, before sorting
(spec side). -/
def builtRecs (rows : List Row) : List CompRec :=
  rows.filterMap fun r =>
    if statusIsCompleted r.status then some (mkCompRec r (rowHours r)) else none

/-- CSV rows with Hours 2, 3.5 and a missing value. -/
def c1rows : List Row :=
  [⟨none, some "2", none, none⟩, ⟨none, some "3.5", none, none⟩, ⟨none, none, none, none⟩]

/-- A CSV row whose Hours field is a non-empty unparsable string. -/
def c1bad : Row := ⟨some "X", some "abc", some "completed", none⟩

/-- Completed rows dated 2023-06-01, undated, and 2024-01-01, in that input
order. -/
def c2rows : List Row :=
  [⟨some "B", none, some "Completed", some "2023-06-01"⟩,
   ⟨some "C", none, some "passed", none⟩,
   ⟨some "A", none, some "Certificate Earned", some "2024-01-01"⟩]

/-- A completed row dated 2024-03-15 and an in-progress row with hours. -/
def c5rows : List Row :=
  [⟨some "Course1", some "2", some "Completed", some "2024-03-15"⟩,
   ⟨some "Course2", some "3.5", some "in progress", none⟩]

/-- A dated completed row followed by two undated completed rows X and Y. -/
def c10rows : List Row :=
  [⟨some "Dated", none, some "Completed", some "2024-01-01"⟩,
   ⟨some "X", none, some "completed", none⟩,
   ⟨some "Y", none, some "completed", none⟩]

/-- The record built for row X of c10rows. -/
def c10a : CompRec :=
  mkCompRec ⟨some "X", none, some "completed", none⟩
    (rowHours ⟨some "X", none, some "completed", none⟩)

/-- The record built for row Y of c10rows. -/
def c10b : CompRec :=
  mkCompRec ⟨some "Y", none, some "completed", none⟩
    (rowHours ⟨some "Y", none, some "completed", none⟩)

/-- An external JSON object with title X and status completed. -/
def c3obj : JObj := [("title", Jval.str "X"), ("status", Jval.str "completed")]

/-- An API element with a non-empty completion date. -/
def c4elem : ApiElem := ⟨"Remote Course", none, some "2024-01-01", "remote-course"⟩

/-- The record fetch_coursera_api builds for c4elem. -/
def c4rec : ApiRec :=
  ⟨"Remote Course", "Coursera", none, "https://www.coursera.org/learn/remote-course"⟩

/-- The main output for a truthy token, missing CSV, the single API element
c4elem, and a missing external file. -/
def c4out : MainOut :=
  { total := 0
    completed := [Sum.inl c4rec]
    external := []
    certs := [Sum.inl (Sum.inl c4rec)] }

/-! ### General evaluation lemmas -/

theorem roundHalfEven_intCast (n : ℤ) : roundHalfEven ((n : ℚ)) = n := by
  unfold roundHalfEven
  rw [Int.floor_intCast]
  norm_num

theorem round1_intOver10 (q : ℚ) (n : ℤ) (h : q * 10 = (n : ℚ)) :
    round1 q = (n : ℚ) / 10 := by
  rw [round1, h, roundHalfEven_intCast]

theorem round1_zero : round1 0 = 0 := by
  have h := round1_intOver10 0 0 (by norm_num)
  simpa using h

theorem pyFloat_two : pyFloat? "2" = some 2 := by
  have h : pyFloat? "2" =
      some ((1 : ℚ) * (((2 : ℕ) : ℚ) + ((0 : ℕ) : ℚ) / (10 : ℚ) ^ (0 : ℕ))) := rfl
  rw [h]
  norm_num

theorem pyFloat_threeFive : pyFloat? "3.5" = some (7 / 2) := by
  have h : pyFloat? "3.5" =
      some ((1 : ℚ) * (((3 : ℕ) : ℚ) + ((5 : ℕ) : ℚ) / (10 : ℚ) ^ (1 : ℕ))) := rfl
  rw [h]
  norm_num

/-- Unfolding the row loop of parse_coursera_csv: when every hours field
parses, the fold returns the accumulated total and the records of the
completed rows appended in input order. -/
theorem csv_fold (rows : List Row) : ∀ (t0 : ℚ) (cs : List CompRec),
    (∀ r ∈ rows, (pyHours r).isSome) →
    rows.foldlM csvStep (t0, cs) =
      some (t0 + (rows.map rowHours).sum, cs ++ builtRecs rows) := by
  induction rows with
  | nil => intro t0 cs _; simp [builtRecs]
  | cons r rows ih =>
    intro t0 cs h
    obtain ⟨v, hv⟩ := Option.isSome_iff_exists.mp (h r (by simp))
    have hrh : rowHours r = v := by simp [rowHours, hv]
    have hstep : csvStep (t0, cs) r =
        some (t0 + v, if statusIsCompleted r.status then cs ++ [mkCompRec r v] else cs) := by
      simp [csvStep, hv]
    rw [List.foldlM_cons, hstep]
    have ih2 := ih (t0 + v)
      (if statusIsCompleted r.status then cs ++ [mkCompRec r v] else cs)
      (fun x hx => h x (by simp [hx]))
    simp only [Option.bind_eq_bind, Option.some_bind, ih2]
    by_cases hb : statusIsCompleted r.status
    · simp [builtRecs, List.filterMap_cons, hb, ← hrh, add_assoc]
    · simp [builtRecs, List.filterMap_cons, hb, ← hrh, add_assoc]

/-- parse_coursera_csv on an existing file whose hours fields all parse. -/
theorem parse_some (rows : List Row) (h : ∀ r ∈ rows, (pyHours r).isSome) :
    parse_coursera_csv (some rows) =
      some (round1 ((rows.map rowHours).sum), sortComps (builtRecs rows)) := by
  simp [parse_coursera_csv, csv_fold rows 0 [] h]

/-- parse_coursera_csv on a missing file. -/
theorem parse_none : parse_coursera_csv none = some (0, []) := by
  simp [parse_coursera_csv, sortComps, round1_zero]

/-- The number of records built equals the number of rows whose status
matches the completed set. -/
theorem length_builtRecs (rows : List Row) :
    (builtRecs rows).length = rows.countP (fun r => statusIsCompleted r.status) := by
  induction rows with
  | nil => simp [builtRecs]
  | cons r rows ih =>
    by_cases hb : statusIsCompleted r.status
    · simp [builtRecs, List.filterMap_cons, hb, List.countP_cons] at ih ⊢
      omega
    · simp [builtRecs, List.filterMap_cons, hb, List.countP_cons] at ih ⊢
      omega

/-- A fold appending one transformed element per iteration is a map. -/
theorem foldl_append_map {α β : Type} (f : α → β) :
    ∀ (items : List α) (acc : List β),
      items.foldl (fun out itm => out ++ [f itm]) acc = acc ++ items.map f := by
  intro items
  induction items with
  | nil => intro acc; simp
  | cons a items ih => intro acc; simp [ih]

/-- A fold appending one transformed element per kept iteration is a
filter-then-map. -/
theorem foldl_filter_map {α β : Type} (p : α → Bool) (f : α → β) :
    ∀ (items : List α) (acc : List β),
      items.foldl (fun out e => if p e then out ++ [f e] else out) acc =
        acc ++ (items.filter p).map f := by
  intro items
  induction items with
  | nil => intro acc; simp
  | cons a items ih =>
    intro acc
    by_cases hp : p a
    · simp [hp, ih]
    · simp [hp, ih]

/-- fetch_external on an existing file maps each object to its defaulted
record. -/
theorem fetch_external_some (objs : List JObj) :
    fetch_external (some objs) = objs.map extRecord := by
  simp [fetch_external, foldl_append_map]

/-- Every record built by fetch_external carries a status key. -/
theorem jget_extRecord_status (itm : JObj) :
    jget (extRecord itm) "status" =
      some ((jget itm "status").getD (Jval.str "in-progress")) := rfl

/-- The status filter of the merge succeeds on any list of records that all
carry a status key, and keeps exactly the records whose status value is the
string completed. -/
theorem selectCompleted_eq (recs : List JObj)
    (h : ∀ r ∈ recs, (jget r "status").isSome) :
    selectCompleted recs =
      some (recs.filter fun r => decide (jget r "status" = some (Jval.str "completed"))) := by
  induction recs with
  | nil => simp [selectCompleted]
  | cons e es ih =>
    obtain ⟨v, hv⟩ := Option.isSome_iff_exists.mp (h e (by simp))
    have ih2 := ih (fun x hx => h x (by simp [hx]))
    by_cases hve : v = Jval.str "completed"
    · simp [selectCompleted, hv, ih2, List.filter_cons, hve]
    · simp [selectCompleted, hv, ih2, List.filter_cons, hve]

/-! ### Claim theorems -/

/-- C1 counterexample: a row whose Hours field is the non-empty unparsable
string abc does not default to 0 and is not included; the whole parse
raises (returns none), so no total is produced at all. -/
theorem claim_C1_counterexample :
    parse_coursera_csv (some [c1bad]) = none := rfl

/-- C1 (amended): the Hours field defaults to 0 only when missing or empty;
when every Hours value is missing, empty or parsable, every row is included
and total_hours is the sum of the per-row values rounded to one decimal.
A CSV with Hours 2, 3.5 and a missing value yields total_hours 5.5. -/
theorem claim_C1 :
    (∀ rows : List Row, (∀ r ∈ rows, (pyHours r).isSome) →
      parse_coursera_csv (some rows) =
        some (round1 ((rows.map rowHours).sum), sortComps (builtRecs rows))) ∧
    (parse_coursera_csv (some c1rows)).map Prod.fst = some (11 / 2) := by
  constructor
  · exact fun rows h => parse_some rows h
  · have hsum : (c1rows.map rowHours).sum = 11 / 2 := by
      simp [c1rows, rowHours, pyHours, pyFloat_two, pyFloat_threeFive]
      norm_num
    rw [parse_some c1rows (by decide)]
    simp only [Option.map_some', hsum]
    rw [round1_intOver10 (11 / 2) 55 (by norm_num)]
    norm_num

/-- Witness for C1 at the concrete three-row CSV. -/
theorem claim_C1_witness :
    (∀ r ∈ c1rows, (pyHours r).isSome) ∧
    parse_coursera_csv (some c1rows) =
      some (round1 ((c1rows.map rowHours).sum), sortComps (builtRecs c1rows)) :=
  ⟨by decide, claim_C1.1 c1rows (by decide)⟩

/-- C2: the completed list produced by the sort step is descending by
completion date with absent dates keyed as the minimal datetime (so they
come last); every list parse_coursera_csv returns is of this sorted form;
on rows dated 2023-06-01, undated, 2024-01-01 the output order is
2024-01-01, 2023-06-01, undated. -/
theorem claim_C2 :
    (∀ comps : List CompRec,
      List.Sorted descByDate (sortComps comps) ∧ (sortComps comps).Perm comps) ∧
    (∀ (file : Option (List Row)) (t : ℚ) (comps : List CompRec),
      parse_coursera_csv file = some (t, comps) → List.Sorted descByDate comps) ∧
    (parse_coursera_csv (some c2rows)).map (fun p => p.2.map fun c => c.title) =
      some ["A", "B", "C"] := by
  refine ⟨fun comps => ⟨List.sorted_insertionSort descByDate comps,
    List.perm_insertionSort descByDate comps⟩, ?_, by decide⟩
  intro file t comps h
  unfold parse_coursera_csv at h
  cases hres : (match file with
    | none => some ((0 : ℚ), ([] : List CompRec))
    | some rows => rows.foldlM csvStep (0, [])) with
  | none => rw [hres] at h; simp at h
  | some p =>
    rw [hres] at h
    simp only [Option.map_some', Option.some.injEq, Prod.mk.injEq] at h
    rw [← h.2]
    exact List.sorted_insertionSort descByDate p.2

/-- Witness for C2 at the concrete three-row CSV. -/
theorem claim_C2_witness :
    parse_coursera_csv (some c2rows) =
      some (round1 ((c2rows.map rowHours).sum), sortComps (builtRecs c2rows)) ∧
    List.Sorted descByDate (sortComps (builtRecs c2rows)) :=
  ⟨parse_some c2rows (by decide),
   claim_C2.2.1 (some c2rows) _ _ (parse_some c2rows (by decide))⟩

/-- C10: the sort is stable: two completed records with equal sort keys (in
particular two undated records) occur in the parse output in the same
relative order in which their rows occur in the input CSV (builtRecs lists
the records in row order). -/
theorem claim_C10 (rows : List Row) (a b : CompRec)
    (h : ∀ r ∈ rows, (pyHours r).isSome)
    (hk : sortKey a = sortKey b)
    (hs : List.Sublist [a, b] (builtRecs rows)) :
    ∃ t comps, parse_coursera_csv (some rows) = some (t, comps) ∧
      List.Sublist [a, b] comps := by
  refine ⟨_, _, parse_some rows h, ?_⟩
  have hab : descByDate a b := Nat.le_of_eq hk.symm
  exact List.pair_sublist_insertionSort hab hs

/-- Witness for C10: two undated records X before Y, behind a dated one. -/
theorem claim_C10_witness :
    (∀ r ∈ c10rows, (pyHours r).isSome) ∧ sortKey c10a = sortKey c10b ∧
    (List.Sublist [c10a, c10b] (builtRecs c10rows)) ∧
    (∃ t comps, parse_coursera_csv (some c10rows) = some (t, comps) ∧
      List.Sublist [c10a, c10b] comps) :=
  ⟨by decide, by decide,
   List.Sublist.cons _ (List.Sublist.refl _),
   claim_C10 c10rows c10a c10b (by decide) (by decide)
     (List.Sublist.cons _ (List.Sublist.refl _))⟩

/-- C3: the certifications list is the completed-source list (wrapped left)
concatenated with exactly those external records whose status value is the
string completed, compared case-sensitively; there is no de-duplication:
with title X completed in both sources, the X record appears twice. -/
theorem claim_C3 :
    (∀ (α : Type) (completed : List α) (objs : List JObj),
      mergeCerts completed (fetch_external (some objs)) =
        some (completed.map Sum.inl ++
          ((fetch_external (some objs)).filter fun r =>
            decide (jget r "status" = some (Jval.str "completed"))).map Sum.inr)) ∧
    mergeCerts [extRecord c3obj] (fetch_external (some [c3obj])) =
      some [Sum.inl (extRecord c3obj), Sum.inr (extRecord c3obj)] := by
  constructor
  · intro α completed objs
    have hstat : ∀ r ∈ fetch_external (some objs), (jget r "status").isSome := by
      rw [fetch_external_some]
      intro r hr
      obtain ⟨itm, _, rfl⟩ := List.mem_map.mp hr
      simp [jget_extRecord_status]
    simp [mergeCerts, selectCompleted_eq _ hstat]
  · decide

/-- C4: when the token is truthy the completed list handed to the merge and
the renderer is exactly the API records; otherwise it is exactly the CSV
completed list; the total is the CSV total in both cases. -/
theorem claim_C4 (token : Option String) (csvFile : Option (List Row))
    (apiElems : List ApiElem) (extFile : Option (List JObj)) (out : MainOut)
    (h : runMain token csvFile apiElems extFile = some out) :
    ∃ t comps, parse_coursera_csv csvFile = some (t, comps) ∧ out.total = t ∧
      out.completed = (if truthyStr token then (fetch_coursera_api apiElems).map Sum.inl
        else comps.map Sum.inr) := by
  unfold runMain at h
  cases hp : parse_coursera_csv csvFile with
  | none => rw [hp] at h; simp at h
  | some tc =>
    rw [hp] at h
    dsimp only at h
    cases hm : mergeCerts
        (if truthyStr token then (fetch_coursera_api apiElems).map Sum.inl
          else tc.2.map Sum.inr)
        (fetch_external extFile) with
    | none => rw [hm] at h; simp at h
    | some certs =>
      rw [hm] at h
      simp only [Option.some.injEq] at h
      refine ⟨tc.1, tc.2, rfl, ?_, ?_⟩
      · rw [← h]
      · rw [← h]

/-- Witness for C4: truthy token, missing CSV, one API element. -/
theorem claim_C4_witness :
    runMain (some "tok") none [c4elem] none = some c4out ∧
    (∃ t comps, parse_coursera_csv none = some (t, comps) ∧ c4out.total = t ∧
      c4out.completed = (if truthyStr (some "tok") then (fetch_coursera_api [c4elem]).map Sum.inl
        else comps.map Sum.inr)) := by
  have hrun : runMain (some "tok") none [c4elem] none = some c4out := by
    simp [runMain, parse_none, truthyStr, fetch_coursera_api, fetch_external,
      mergeCerts, selectCompleted, c4elem, c4out, c4rec]
  exact ⟨hrun, claim_C4 (some "tok") none [c4elem] none c4out hrun⟩

/-- C5: a row is emitted exactly when its lowercased status is in the
completed set (the count of records equals the count of such rows); the
first ten characters of the date field are tried against the three formats
in order with the first success winning; Status Completed with date
2024-03-15 gives display 15 Mar 2024 while an in-progress row is counted
in the total (5.5) but excluded from the records. -/
theorem claim_C5 :
    (∀ s : String, parseDateField s =
      ((strptimeYMD (s.toList.take 10)).orElse fun _ =>
        (strptimeDMYdash (s.toList.take 10)).orElse fun _ =>
          strptimeDMYslash (s.toList.take 10))) ∧
    (∀ rows : List Row, (∀ r ∈ rows, (pyHours r).isSome) →
      (parse_coursera_csv (some rows)).map (fun p => p.2.length) =
        some (rows.countP fun r => statusIsCompleted r.status)) ∧
    (parse_coursera_csv (some c5rows)).map
        (fun p => p.2.map fun c => (c.title, c.completed_at, c.completed_at_display)) =
      some [("Course1", some ⟨2024, 3, 15⟩, "15 Mar 2024")] ∧
    (parse_coursera_csv (some c5rows)).map Prod.fst = some (11 / 2) := by
  refine ⟨?_, ?_, by decide, ?_⟩
  · intro s
    simp only [parseDateField, String.toList]
    cases h1 : strptimeYMD (List.take 10 s.data) with
    | some d => simp [h1, Option.orElse]
    | none =>
      cases h2 : strptimeDMYdash (List.take 10 s.data) with
      | some d => simp [h1, h2, Option.orElse]
      | none => simp [h1, h2, Option.orElse]
  · intro rows h
    rw [parse_some rows h]
    simp [sortComps, List.length_insertionSort, length_builtRecs]
  · have hsum : (c5rows.map rowHours).sum = 11 / 2 := by
      simp [c5rows, rowHours, pyHours, pyFloat_two, pyFloat_threeFive]
      norm_num
    rw [parse_some c5rows (by decide)]
    simp only [Option.map_some', hsum]
    rw [round1_intOver10 (11 / 2) 55 (by norm_num)]
    norm_num

/-- Witness for C5 at the concrete two-row CSV. -/
theorem claim_C5_witness :
    (∀ r ∈ c5rows, (pyHours r).isSome) ∧
    (parse_coursera_csv (some c5rows)).map (fun p => p.2.length) =
      some (c5rows.countP fun r => statusIsCompleted r.status) :=
  ⟨by decide, claim_C5.2.1 c5rows (by decide)⟩

/-- C6: missing input files are empty data, not errors: a missing CSV gives
(0, []), a missing external file gives [], and a run with no token and both
files missing produces total 0 and empty completed, external and
certification lists. -/
theorem claim_C6 :
    parse_coursera_csv none = some (0, []) ∧ fetch_external none = [] ∧
    ∀ apiElems : List ApiElem, runMain none none apiElems none =
      some { total := 0, completed := [], external := [], certs := [] } := by
  refine ⟨parse_none, rfl, fun apiElems => ?_⟩
  simp [runMain, parse_none, truthyStr, fetch_external, mergeCerts, selectCompleted]

/-- C7: fetch_coursera_api emits one record for exactly the elements with a
truthy (present and non-empty) completion date, carrying the course name,
the fixed provider, the workload as hours, and the URL built from the slug. -/
theorem claim_C7 (elems : List ApiElem) :
    fetch_coursera_api elems =
      (elems.filter fun e => truthyStr e.completionDate).map fun e =>
        { title := e.courseName, provider := "Coursera", hours := e.workload,
          url := "https://www.coursera.org/learn/" ++ e.slug : ApiRec } := by
  simp [fetch_coursera_api, foldl_filter_map]

/-- First-match lookup skips an entry whose key differs from the one looked
up, wherever that entry sits in the list. -/
theorem lookup_append_middle {β : Type} (k' k : String) (hne : k' ≠ k) (v : β) :
    ∀ (l1 l2 : List (String × β)),
      List.lookup k' (l1 ++ (k, v) :: l2) = List.lookup k' (l1 ++ l2) := by
  have hbe : (k' == k) = false := by
    simp [hne]
  intro l1
  induction l1 with
  | nil => intro l2; simp [List.lookup, hbe]
  | cons a l1 ih =>
    intro l2
    cases a with
    | mk ka va =>
      cases hak : (k' == ka) with
      | true => simp [List.lookup, hak]
      | false => simp [List.lookup, hak, ih]

/-- C8: every object read by fetch_external becomes one record in order,
with each field read through a silent default (title, provider and url
default to the empty string, hours to 0, status to in-progress); an entry
under any other key does not affect the record. -/
theorem claim_C8 :
    (∀ itm : JObj,
      jget (extRecord itm) "title" = some ((jget itm "title").getD (Jval.str "")) ∧
      jget (extRecord itm) "provider" = some ((jget itm "provider").getD (Jval.str "")) ∧
      jget (extRecord itm) "hours" = some ((jget itm "estimated_hours").getD (Jval.num 0)) ∧
      jget (extRecord itm) "status" = some ((jget itm "status").getD (Jval.str "in-progress")) ∧
      jget (extRecord itm) "url" = some ((jget itm "url").getD (Jval.str ""))) ∧
    (∀ objs : List JObj, fetch_external (some objs) = objs.map extRecord) ∧
    (∀ (l1 l2 : JObj) (k : String) (v : Jval),
      ¬(k = "title" ∨ k = "provider" ∨ k = "estimated_hours" ∨ k = "status" ∨ k = "url") →
      extRecord (l1 ++ (k, v) :: l2) = extRecord (l1 ++ l2)) := by
  refine ⟨fun itm => ⟨rfl, rfl, rfl, rfl, rfl⟩, fetch_external_some, ?_⟩
  intro l1 l2 k v hk
  push_neg at hk
  obtain ⟨h1, h2, h3, h4, h5⟩ := hk
  simp only [extRecord, jget]
  rw [lookup_append_middle "title" k (Ne.symm h1) v l1 l2,
    lookup_append_middle "provider" k (Ne.symm h2) v l1 l2,
    lookup_append_middle "estimated_hours" k (Ne.symm h3) v l1 l2,
    lookup_append_middle "status" k (Ne.symm h4) v l1 l2,
    lookup_append_middle "url" k (Ne.symm h5) v l1 l2]

/-- Witness for C8: an entry under the key extra is ignored. -/
theorem claim_C8_witness :
    ¬("extra" = "title" ∨ "extra" = "provider" ∨ "extra" = "estimated_hours" ∨
      "extra" = "status" ∨ "extra" = "url") ∧
    extRecord ([("title", Jval.str "T")] ++ ("extra", Jval.num 1) :: []) =
      extRecord ([("title", Jval.str "T")] ++ []) :=
  ⟨by decide,
   claim_C8.2.2 [("title", Jval.str "T")] [] "extra" (Jval.num 1) (by decide)⟩

/-- C9: every record returned by fetch_external carries all five keys, so
the unguarded status subscript in the merge succeeds for every input. -/
theorem claim_C9 :
    (∀ objs : List JObj,
      (fetch_external (some objs)).all (fun r =>
        (jget r "title").isSome && (jget r "provider").isSome &&
        (jget r "hours").isSome && (jget r "status").isSome &&
        (jget r "url").isSome) = true) ∧
    (∀ (completed : List (ApiRec ⊕ CompRec)) (extFile : Option (List JObj)),
      (mergeCerts completed (fetch_external extFile)).isSome = true) := by
  constructor
  · intro objs
    rw [fetch_external_some, List.all_eq_true]
    intro r hr
    obtain ⟨itm, _, rfl⟩ := List.mem_map.mp hr
    rfl
  · intro completed extFile
    have hstat : ∀ r ∈ fetch_external extFile, (jget r "status").isSome := by
      cases extFile with
      | none => simp [fetch_external]
      | some objs =>
        rw [fetch_external_some]
        intro r hr
        obtain ⟨itm, _, rfl⟩ := List.mem_map.mp hr
        simp [jget_extRecord_status]
    simp [mergeCerts, selectCompleted_eq _ hstat]
